import Mathlib

/-!
Shallow embedding of the anarchic-image-hosting-bot upload pipeline
(src/main.rs): the multipart staging function `save_file`, the Telegram
forwarding function `upload_to_telegram`, and the request handler `upload`.

Effects (file creation, writes, deletion attempts, semaphore permit
acquisition and release, log lines) are made explicit as an event trace
returned alongside each result.  The external world (local disk, the
Telegram API) is an explicit oracle parameter, so one run of a function on
one oracle models one execution of the Rust code against one behaviour of
the environment.  Rust panics (the `unwrap` calls in `save_file`) are a
dedicated result constructor, since a panic is not an error response.
-/

namespace ImageBot

/-- A chunk of bytes from the multipart stream (`Bytes` in the source). -/
abbrev Chunk := List Nat

/-- The content-disposition header of a multipart field; `get_filename`
returns an `Option`, mirrored by the `filename` field. -/
structure ContentDisposition where
  filename : Option String
deriving DecidableEq

deriving instance DecidableEq for Except

/-- One multipart field: its optional content-disposition header and the
stream of chunks, where each chunk read may itself fail (the `chunk?` in
`save_file`). -/
structure MField where
  content_disposition : Option ContentDisposition
  chunks : List (Except String Chunk)
deriving DecidableEq

/-- The multipart payload: the stream of items yielded by `payload.next()`;
each item is either a field or a multipart error (the `item?` in
`save_file`). -/
abbrev Multipart := List (Except String MField)

/-- An observable effect of one request: filesystem operations, semaphore
permit operations, and log lines, in program order. -/
inductive Event where
  | fileCreate (path : String)
  | fileWrite (path : String) (data : Chunk)
  | fileRemove (path : String)
  | semAcquire
  | semRelease
  | logDebug (msg : String)
  | logInfo (msg : String)
  | logError (msg : String)
deriving DecidableEq

/-- The local-disk oracle: whether `File::create`, `write_all` and
`std::fs::remove_file` succeed at a given path. -/
structure DiskEnv where
  createOk : String → Bool
  writeOk : String → Chunk → Bool
  removeOk : String → Bool

/-- Errors produced by `save_file`: multipart-stream errors propagated by
`?`, and `actix_web::error::ErrorInternalServerError` values. -/
inductive SErr where
  | multipart (e : String)
  | internal (msg : String)
deriving DecidableEq

/-- Result of a Rust computation that may also panic (the `unwrap` calls). -/
inductive RunResult (α : Type) where
  | ok (a : α)
  | err (e : SErr)
  | panicked (msg : String)
deriving DecidableEq

/-- The inner write loop of `save_file` (main.rs lines 74-77): writes the
chunks of one field sequentially; a chunk-read error or a failed
`write_all` aborts with an error.  Note: no cleanup of the file happens
here. -/
def writeChunks (env : DiskEnv) (path : String) :
    List (Except String Chunk) → Except SErr Unit × List Event
  | [] => (Except.ok (), [])
  | Except.error e :: _ => (Except.error (SErr.multipart e), [])
  | Except.ok data :: rest =>
    if env.writeOk path data then
      ((writeChunks env path rest).1, Event.fileWrite path data :: (writeChunks env path rest).2)
    else
      (Except.error (SErr.internal ("write failed")), [])

/-- The loop body of `save_file` (main.rs lines 57-94).  `i` counts loop
iterations (each iteration draws one fresh identifier `uuids i`, modelling
`Uuid::new_v4()`), `file_path` is the mutable local of the same name.
`sanitize` models `sanitize_filename::sanitize`.  The two `unwrap` calls on
the content disposition and the filename become `panicked` outcomes. -/
def save_file_loop (env : DiskEnv) (sanitize : String → String) (uuids : Nat → String) :
    Nat → String → Multipart → RunResult String × List Event
  | _, file_path, [] =>
    if file_path = "" then
      (RunResult.err (SErr.internal ("File path is empty")),
       [Event.logError ("File path is empty, failed to save file")])
    else
      (RunResult.ok file_path, [])
  | _, _, Except.error e :: _ => (RunResult.err (SErr.multipart e), [])
  | i, _, Except.ok field :: rest =>
    match field.content_disposition with
    | none => (RunResult.panicked ("called Option::unwrap on a None value"), [])
    | some cd =>
      match cd.filename with
      | none => (RunResult.panicked ("called Option::unwrap on a None value"), [])
      | some filename =>
        let ev0 := Event.logDebug ("Received file: " ++ filename)
        let filepath := "C:/webtemp/" ++ uuids i ++ "_" ++ sanitize filename
        if env.createOk filepath then
          match writeChunks env filepath field.chunks with
          | (Except.ok _, wevs) =>
            let r := save_file_loop env sanitize uuids (i + 1) filepath rest
            (r.1, ev0 :: Event.fileCreate filepath :: wevs
                    ++ Event.logInfo ("File created successfully: " ++ filepath) :: r.2)
          | (Except.error e, wevs) =>
            (RunResult.err e, ev0 :: Event.fileCreate filepath :: wevs)
        else
          (RunResult.err (SErr.internal ("create failed")),
           [ev0, Event.logError ("Failed to create file")])

/-- `save_file` (main.rs lines 57-94): the loop starts with an empty
`file_path` and iteration index 0. -/
def save_file (env : DiskEnv) (sanitize : String → String) (uuids : Nat → String)
    (payload : Multipart) : RunResult String × List Event :=
  save_file_loop env sanitize uuids 0 "" payload

/-- A size variant in the photo array of a Telegram message. -/
structure PhotoSize where
  file_id : String
deriving DecidableEq

/-- The message returned by `send_photo`; `response.photo()` is an
`Option` over the list of size variants. -/
structure TgMessage where
  photo : Option (List PhotoSize)
deriving DecidableEq

/-- The value returned by `get_file`: a resolvable file path. -/
structure TgFile where
  path : String
deriving DecidableEq

/-- The Telegram API oracle: the behaviour of `bot.send_photo` and
`bot.get_file` during this request. -/
structure Platform where
  send_photo : Int → String → Except String TgMessage
  get_file : String → Except String TgFile

/-- The bot handle; its only datum relevant here is the credential
(`bot.token()`). -/
structure Bot where
  token : String
deriving DecidableEq

/-- Errors of `upload_to_telegram`: the two `ok_or` messages and
transport/API failures propagated by `?`. -/
inductive UErr where
  | noPhoto
  | emptyPhotos
  | api (e : String)
deriving DecidableEq

/-- Rendering of a `UErr`, as the handler formats it into the response
body and the error log line. -/
def showUErr : UErr → String
  | UErr.noPhoto => "No photo in response"
  | UErr.emptyPhotos => "Photo array is empty"
  | UErr.api e => e

/-- Rendering of an `SErr` for the failure response body. -/
def showSErr : SErr → String
  | SErr.multipart e => e
  | SErr.internal msg => msg

/-- `upload_to_telegram` (main.rs lines 34-54): sends the photo, takes the
`last()` element of the photo array, resolves its `file_id` via
`get_file`, and composes the public URL from the bot token and the
resolved path.  It contains no `unwrap`, so it cannot panic. -/
def upload_to_telegram (platform : Platform) (file_path : String) (bot : Bot)
    (chat_id : Int) : Except UErr String × List Event :=
  let ev0 := Event.logDebug ("Uploading file: " ++ file_path ++ " to Telegram chat: "
      ++ toString chat_id)
  match platform.send_photo chat_id file_path with
  | Except.error e => (Except.error (UErr.api e), [ev0])
  | Except.ok response =>
    match response.photo with
    | none => (Except.error UErr.noPhoto, [ev0])
    | some photos =>
      match photos.getLast? with
      | none => (Except.error UErr.emptyPhotos, [ev0])
      | some ps =>
        let file_id := ps.file_id
        let ev1 := Event.logDebug ("File uploaded to Telegram, received file ID: " ++ file_id)
        match platform.get_file file_id with
        | Except.error e => (Except.error (UErr.api e), [ev0, ev1])
        | Except.ok f =>
          let file_url := "https://api.telegram.org/file/bot" ++ bot.token ++ "/" ++ f.path
          (Except.ok file_url, [ev0, ev1, Event.logDebug ("Generated file URL: " ++ file_url)])

/-- The HTTP response produced by the handler. -/
structure HttpResponse where
  status : Nat
  body : String
deriving DecidableEq

/-- The shared data of the handler (main.rs lines 142-146).  The semaphore
itself is modelled by the `semAcquire`/`semRelease` events here and by the
`SemStep` transition system below; its `acquire().unwrap()` cannot fail
because the semaphore is never closed. -/
structure UploadData where
  bot : Bot
  chat_id : Int

/-- The response the handler derives from the forwarding result
(main.rs lines 123-132). -/
def respOfForward : Except UErr String → HttpResponse
  | Except.ok url => HttpResponse.mk 200 url
  | Except.error e => HttpResponse.mk 500 ("Failed to upload image: " ++ showUErr e)

/-- The `upload` handler (main.rs lines 96-139): stage the payload, acquire
a semaphore permit, forward to Telegram, release the permit, attempt to
delete the temp file (a failure is only logged), then respond from the
forwarding result.  A panic in `save_file` propagates. -/
def upload (env : DiskEnv) (platform : Platform) (sanitize : String → String)
    (uuids : Nat → String) (data : UploadData) (payload : Multipart) :
    RunResult HttpResponse × List Event :=
  let ev0 := Event.logDebug ("Starting upload process for chat ID: " ++ toString data.chat_id)
  let s := save_file env sanitize uuids payload
  match s.1 with
  | RunResult.ok file_path =>
    let u := upload_to_telegram platform file_path data.bot data.chat_id
    let remEvs :=
      if env.removeOk file_path then [Event.fileRemove file_path]
      else [Event.fileRemove file_path,
            Event.logError ("Failed to delete temporary file: " ++ file_path)]
    let preEvs := ev0 :: s.2 ++ Event.logDebug ("File saved locally at: " ++ file_path)
        :: Event.semAcquire :: u.2 ++ Event.semRelease :: remEvs
    match u.1 with
    | Except.ok url =>
      (RunResult.ok (respOfForward (Except.ok url)),
       preEvs ++ [Event.logDebug ("Successfully uploaded image to Telegram, URL: " ++ url)])
    | Except.error e =>
      (RunResult.ok (respOfForward (Except.error e)),
       preEvs ++ [Event.logError ("Failed to upload image to Telegram: " ++ showUErr e)])
  | RunResult.err e =>
    (RunResult.ok (HttpResponse.mk 500 ("Failed to save file: " ++ showSErr e)),
     ev0 :: s.2 ++ [Event.logError ("Failed to save file: " ++ showSErr e)])
  | RunResult.panicked m => (RunResult.panicked m, ev0 :: s.2)

/-- The configuration record (main.rs lines 15-22). -/
structure Config where
  telegram_bot_token : String
  chat_id : Int
  max_concurrent_uploads : Nat
  host : String
  port : String

/-- The custom `Debug` rendering of `Config` (main.rs lines 24-31), which
deliberately prints only `max_concurrent_uploads`. -/
def configDebugOutput (c : Config) : String :=
  "Config \x7b max_concurrent_uploads: " ++ toString c.max_concurrent_uploads ++ " \x7d"

/-- The path of a file-creation event. -/
def createPath : Event → Option String
  | Event.fileCreate p => some p
  | _ => none

/-- The path of a deletion-attempt event. -/
def removePath : Event → Option String
  | Event.fileRemove p => some p
  | _ => none

/-- Recognizes a permit acquisition. -/
def isAcquireEv : Event → Bool
  | Event.semAcquire => true
  | _ => false

/-- Recognizes a permit release. -/
def isReleaseEv : Event → Bool
  | Event.semRelease => true
  | _ => false

/-- The paths of the files a trace creates, in order. -/
def creates (evs : List Event) : List String :=
  evs.filterMap createPath

/-- The paths of the deletion attempts in a trace, in order. -/
def removals (evs : List Event) : List String :=
  evs.filterMap removePath

/-- Number of semaphore permit acquisitions in a trace. -/
def acquires (evs : List Event) : Nat :=
  evs.countP isAcquireEv

/-- Number of semaphore permit releases in a trace. -/
def releases (evs : List Event) : Nat :=
  evs.countP isReleaseEv

/-- True of log events only. -/
def isLogEvent : Event → Bool
  | Event.logDebug _ => true
  | Event.logInfo _ => true
  | Event.logError _ => true
  | _ => false

/-- The staged paths `save_file` computes for the parts of a payload,
starting at iteration index `i`: one per leading well-formed part. -/
def stagedPaths (sanitize : String → String) (uuids : Nat → String) :
    Nat → Multipart → List String
  | _, [] => []
  | _, Except.error _ :: _ => []
  | i, Except.ok field :: rest =>
    match field.content_disposition with
    | none => []
    | some cd =>
      match cd.filename with
      | none => []
      | some filename =>
        ("C:/webtemp/" ++ uuids i ++ "_" ++ sanitize filename)
          :: stagedPaths sanitize uuids (i + 1) rest

/-- A payload in which every yielded field carries a content disposition
with a filename, so the `unwrap` calls in `save_file` cannot fire. -/
def allNamed (payload : Multipart) : Bool :=
  payload.all fun item =>
    match item with
    | Except.error _ => true
    | Except.ok field =>
      match field.content_disposition with
      | none => false
      | some cd => cd.filename.isSome

/-! ### Trace lemmas for the staging function -/

/-- Every event emitted by `writeChunks` is a write to the given path. -/
lemma writeChunks_events (env : DiskEnv) (path : String) :
    ∀ (chunks : List (Except String Chunk)) (e : Event),
      e ∈ (writeChunks env path chunks).2 → ∃ d, e = Event.fileWrite path d := by
  intro chunks
  induction chunks with
  | nil => intro e he; simp [writeChunks] at he
  | cons c rest ih =>
    intro e he
    cases c with
    | error msg => simp [writeChunks] at he
    | ok data =>
      by_cases hw : env.writeOk path data
      · simp only [writeChunks, hw, if_true, List.mem_cons] at he
        rcases he with he | he
        · exact ⟨data, he⟩
        · exact ih e he
      · simp [writeChunks, hw] at he

/-- On success, `writeChunks` wrote exactly the chunks of the stream, in
stream order. -/
lemma writeChunks_ok_events (env : DiskEnv) (path : String) :
    ∀ (chunks : List (Except String Chunk)),
      (writeChunks env path chunks).1 = Except.ok () →
      ∃ datas : List Chunk, chunks = datas.map Except.ok
        ∧ (writeChunks env path chunks).2 = datas.map (Event.fileWrite path) := by
  intro chunks
  induction chunks with
  | nil => intro _; exact ⟨[], rfl, rfl⟩
  | cons c rest ih =>
    intro h
    cases c with
    | error msg => simp [writeChunks] at h
    | ok data =>
      by_cases hw : env.writeOk path data
      · simp only [writeChunks, hw, if_true] at h
        rcases ih h with ⟨datas, hc, hevs⟩
        refine ⟨data :: datas, ?_, ?_⟩
        · simp [hc]
        · simp [writeChunks, hw, hevs]
      · simp [writeChunks, hw] at h

/-- On a failing run, `writeChunks` wrote exactly the chunks that were
successfully read and written before the failure, still in stream order:
the emitted writes form the leading fully-ok segment of the stream. -/
lemma writeChunks_err_events (env : DiskEnv) (path : String) :
    ∀ (chunks : List (Except String Chunk)) (e : SErr),
      (writeChunks env path chunks).1 = Except.error e →
      ∃ datas : List Chunk,
        (writeChunks env path chunks).2 = datas.map (Event.fileWrite path)
        ∧ chunks.take datas.length = datas.map Except.ok := by
  intro chunks
  induction chunks with
  | nil => intro e h; simp [writeChunks] at h
  | cons c rest ih =>
    intro e h
    cases c with
    | error msg =>
      refine ⟨[], ?_, ?_⟩ <;> simp [writeChunks]
    | ok data =>
      by_cases hwk : env.writeOk path data
      · simp only [writeChunks, hwk, if_true] at h ⊢
        rcases ih e h with ⟨datas, h1, h2⟩
        refine ⟨data :: datas, ?_, ?_⟩
        · simp [h1]
        · simp [h2]
      · refine ⟨[], ?_, ?_⟩ <;> simp [writeChunks, hwk]

/-- Events that are neither semaphore operations nor deletion attempts. -/
def noSemRem : Event → Bool
  | Event.semAcquire => false
  | Event.semRelease => false
  | Event.fileRemove _ => false
  | _ => true

/-- A trace of benign events has no permit operations and no deletion
attempts. -/
lemma all_noSemRem_counts :
    ∀ (evs : List Event), (∀ e ∈ evs, noSemRem e = true) →
      acquires evs = 0 ∧ releases evs = 0 ∧ removals evs = [] := by
  intro evs h
  refine ⟨?_, ?_, ?_⟩
  · rw [acquires, List.countP_eq_zero]
    intro e he hacq
    have hb := h e he
    cases e <;> simp [noSemRem] at hb <;> simp [isAcquireEv] at hacq
  · rw [releases, List.countP_eq_zero]
    intro e he hrel
    have hb := h e he
    cases e <;> simp [noSemRem] at hb <;> simp [isReleaseEv] at hrel
  · rw [removals, List.filterMap_eq_nil_iff]
    intro e he
    have hb := h e he
    cases e <;> simp [noSemRem] at hb <;> simp [removePath]

/-- `save_file_loop` emits only filesystem creations, writes and log
lines: no permit operations and no deletion attempts. -/
lemma save_file_loop_noSemRem (env : DiskEnv) (san : String → String) (uu : Nat → String) :
    ∀ (payload : Multipart) (i : Nat) (fp : String),
      ∀ e ∈ (save_file_loop env san uu i fp payload).2, noSemRem e = true := by
  intro payload
  induction payload with
  | nil =>
    intro i fp e he
    by_cases hfp : fp = "" <;> simp [save_file_loop, hfp] at he
    subst he; rfl
  | cons item rest ih =>
    intro i fp e he
    cases item with
    | error msg => simp [save_file_loop] at he
    | ok field =>
      cases hcd : field.content_disposition with
      | none => simp [save_file_loop, hcd] at he
      | some cd =>
        cases hfn : cd.filename with
        | none => simp [save_file_loop, hcd, hfn] at he
        | some filename =>
          by_cases hc : env.createOk ("C:/webtemp/" ++ uu i ++ "_" ++ san filename)
          · rcases hw : writeChunks env ("C:/webtemp/" ++ uu i ++ "_" ++ san filename)
                field.chunks with ⟨wr, wevs⟩
            cases wr with
            | ok u =>
              have hev : (save_file_loop env san uu i fp (Except.ok field :: rest)).2
                  = (Event.logDebug ("Received file: " ++ filename)
                      :: Event.fileCreate ("C:/webtemp/" ++ uu i ++ "_" ++ san filename)
                      :: wevs)
                    ++ Event.logInfo ("File created successfully: "
                        ++ ("C:/webtemp/" ++ uu i ++ "_" ++ san filename))
                      :: (save_file_loop env san uu (i + 1)
                          ("C:/webtemp/" ++ uu i ++ "_" ++ san filename) rest).2 := by
                simp [save_file_loop, hcd, hfn, hc, hw]
              rw [hev] at he
              simp only [List.mem_cons, List.mem_append] at he
              rcases he with (rfl | rfl | he) | (rfl | he)
              · rfl
              · rfl
              · rcases writeChunks_events env _ field.chunks e (by rw [hw]; exact he)
                  with ⟨d, rfl⟩
                rfl
              · rfl
              · exact ih (i + 1) _ e he
            | error werr =>
              have hev : (save_file_loop env san uu i fp (Except.ok field :: rest)).2
                  = Event.logDebug ("Received file: " ++ filename)
                    :: Event.fileCreate ("C:/webtemp/" ++ uu i ++ "_" ++ san filename)
                    :: wevs := by
                simp [save_file_loop, hcd, hfn, hc, hw]
              rw [hev] at he
              simp only [List.mem_cons] at he
              rcases he with rfl | rfl | he
              · rfl
              · rfl
              · rcases writeChunks_events env _ field.chunks e (by rw [hw]; exact he)
                  with ⟨d, rfl⟩
                rfl
          · have hev : (save_file_loop env san uu i fp (Except.ok field :: rest)).2
                = [Event.logDebug ("Received file: " ++ filename),
                   Event.logError ("Failed to create file")] := by
              simp [save_file_loop, hcd, hfn, hc]
            rw [hev] at he
            simp only [List.mem_cons, List.not_mem_nil, or_false] at he
            rcases he with rfl | rfl
            · rfl
            · rfl

/-- On success, the files `save_file_loop` creates are exactly the staged
paths of the payload in order, the returned path is the last staged path
(defaulting to the incoming `file_path`), and there is one staged path per
part. -/
lemma save_file_loop_ok (env : DiskEnv) (san : String → String) (uu : Nat → String) :
    ∀ (payload : Multipart) (i : Nat) (fp p : String),
      (save_file_loop env san uu i fp payload).1 = RunResult.ok p →
      creates (save_file_loop env san uu i fp payload).2 = stagedPaths san uu i payload
      ∧ (stagedPaths san uu i payload).getLastD fp = p
      ∧ (stagedPaths san uu i payload).length = payload.length := by
  intro payload
  induction payload with
  | nil =>
    intro i fp p h
    by_cases hfp : fp = ""
    · simp [save_file_loop, hfp] at h
    · simp [save_file_loop, hfp] at h
      subst h
      refine ⟨?_, rfl, rfl⟩
      simp [save_file_loop, hfp, creates, stagedPaths]
  | cons item rest ih =>
    intro i fp p h
    cases item with
    | error msg => simp [save_file_loop] at h
    | ok field =>
      cases hcd : field.content_disposition with
      | none => simp [save_file_loop, hcd] at h
      | some cd =>
        cases hfn : cd.filename with
        | none => simp [save_file_loop, hcd, hfn] at h
        | some filename =>
          by_cases hc : env.createOk ("C:/webtemp/" ++ uu i ++ "_" ++ san filename)
          · rcases hw : writeChunks env ("C:/webtemp/" ++ uu i ++ "_" ++ san filename)
                field.chunks with ⟨wr, wevs⟩
            cases wr with
            | ok u =>
              simp only [save_file_loop, hcd, hfn, hc, if_true, hw] at h
              rcases ih (i + 1) ("C:/webtemp/" ++ uu i ++ "_" ++ san filename) p h
                with ⟨hcr, hlast, hlen⟩
              have hwnil : List.filterMap createPath wevs = [] :=
                List.filterMap_eq_nil_iff.mpr (fun e he => by
                  rcases writeChunks_events env _ field.chunks e (by rw [hw]; exact he)
                    with ⟨d, rfl⟩
                  rfl)
              have hev : (save_file_loop env san uu i fp (Except.ok field :: rest)).2
                  = (Event.logDebug ("Received file: " ++ filename)
                      :: Event.fileCreate ("C:/webtemp/" ++ uu i ++ "_" ++ san filename)
                      :: wevs)
                    ++ Event.logInfo ("File created successfully: "
                        ++ ("C:/webtemp/" ++ uu i ++ "_" ++ san filename))
                      :: (save_file_loop env san uu (i + 1)
                          ("C:/webtemp/" ++ uu i ++ "_" ++ san filename) rest).2 := by
                simp [save_file_loop, hcd, hfn, hc, hw]
              have hst : stagedPaths san uu i (Except.ok field :: rest)
                  = ("C:/webtemp/" ++ uu i ++ "_" ++ san filename)
                    :: stagedPaths san uu (i + 1) rest := by
                simp [stagedPaths, hcd, hfn]
              refine ⟨?_, ?_, ?_⟩
              · rw [hev, hst]
                simp only [creates, List.filterMap_append, List.filterMap_cons] at hcr ⊢
                simp only [createPath, hwnil]
                simp [hcr]
              · rw [hst, List.getLastD_cons]
                exact hlast
              · rw [hst]
                simp [hlen]
            | error werr => simp [save_file_loop, hcd, hfn, hc, hw] at h
          · simp [save_file_loop, hcd, hfn, hc] at h

/-- When the part at the head of the remaining stream has a filename, its
file is created, and its write loop fails (a chunk read error or a failed
`write_all`), `save_file_loop` immediately returns that I/O error; the
trace shows the file created and the partial writes, with no removal. -/
lemma save_file_loop_head_fail (env : DiskEnv) (san : String → String)
    (uu : Nat → String) (i : Nat) (fp : String) (field : MField) (rest : Multipart)
    (cd : ContentDisposition) (filename : String) (e : SErr)
    (hcd : field.content_disposition = some cd) (hfn : cd.filename = some filename)
    (hc : env.createOk ("C:/webtemp/" ++ uu i ++ "_" ++ san filename) = true)
    (hw : (writeChunks env ("C:/webtemp/" ++ uu i ++ "_" ++ san filename) field.chunks).1
      = Except.error e) :
    (save_file_loop env san uu i fp (Except.ok field :: rest)).1 = RunResult.err e
    ∧ (save_file_loop env san uu i fp (Except.ok field :: rest)).2
      = Event.logDebug ("Received file: " ++ filename)
        :: Event.fileCreate ("C:/webtemp/" ++ uu i ++ "_" ++ san filename)
        :: (writeChunks env ("C:/webtemp/" ++ uu i ++ "_" ++ san filename) field.chunks).2 := by
  rcases hwp : writeChunks env ("C:/webtemp/" ++ uu i ++ "_" ++ san filename) field.chunks
    with ⟨wr, wevs⟩
  rw [hwp] at hw
  simp only at hw
  subst hw
  constructor <;> simp [save_file_loop, hcd, hfn, hc, hwp]

/-- If the loop stages a leading segment of the stream successfully, the
loop on the whole stream continues from the state the segment left behind
(iteration index advanced by one per part, current path the segment
result), with the traces concatenated. -/
lemma save_file_loop_append (env : DiskEnv) (san : String → String) (uu : Nat → String) :
    ∀ (pre rest : Multipart) (i : Nat) (fp p : String),
      (save_file_loop env san uu i fp pre).1 = RunResult.ok p →
      (save_file_loop env san uu i fp (pre ++ rest)).1
        = (save_file_loop env san uu (i + pre.length) p rest).1
      ∧ (save_file_loop env san uu i fp (pre ++ rest)).2
        = (save_file_loop env san uu i fp pre).2
          ++ (save_file_loop env san uu (i + pre.length) p rest).2 := by
  intro pre
  induction pre with
  | nil =>
    intro rest i fp p h
    by_cases hfp : fp = ""
    · simp [save_file_loop, hfp] at h
    · simp [save_file_loop, hfp] at h
      subst h
      constructor <;> simp [save_file_loop, hfp]
  | cons item pre' ih =>
    intro rest i fp p h
    cases item with
    | error msg => simp [save_file_loop] at h
    | ok field =>
      cases hcd : field.content_disposition with
      | none => simp [save_file_loop, hcd] at h
      | some cd =>
        cases hfn : cd.filename with
        | none => simp [save_file_loop, hcd, hfn] at h
        | some filename =>
          by_cases hc : env.createOk ("C:/webtemp/" ++ uu i ++ "_" ++ san filename)
          · rcases hw : writeChunks env ("C:/webtemp/" ++ uu i ++ "_" ++ san filename)
                field.chunks with ⟨wr, wevs⟩
            cases wr with
            | ok u =>
              simp only [save_file_loop, hcd, hfn, hc, if_true, hw] at h
              rcases ih rest (i + 1) ("C:/webtemp/" ++ uu i ++ "_" ++ san filename) p h
                with ⟨ih1, ih2⟩
              have harith : i + 1 + pre'.length = i + (pre'.length + 1) := by omega
              rw [harith] at ih1 ih2
              constructor
              · simp only [List.cons_append, save_file_loop, hcd, hfn, hc, if_true, hw]
                simpa using ih1
              · simp only [List.cons_append, save_file_loop, hcd, hfn, hc, if_true, hw]
                simp [ih2]
            | error werr => simp [save_file_loop, hcd, hfn, hc, hw] at h
          · simp [save_file_loop, hcd, hfn, hc] at h

/-- If every yielded field carries a filename, `save_file_loop` cannot
panic. -/
lemma save_file_loop_no_panic (env : DiskEnv) (san : String → String) (uu : Nat → String) :
    ∀ (payload : Multipart) (i : Nat) (fp m : String),
      allNamed payload = true →
      (save_file_loop env san uu i fp payload).1 ≠ RunResult.panicked m := by
  intro payload
  induction payload with
  | nil =>
    intro i fp m _ h
    by_cases hfp : fp = "" <;> simp [save_file_loop, hfp] at h
  | cons item rest ih =>
    intro i fp m hn h
    cases item with
    | error msg => simp [save_file_loop] at h
    | ok field =>
      simp only [allNamed, List.all_cons, Bool.and_eq_true] at hn
      cases hcd : field.content_disposition with
      | none => rw [hcd] at hn; simp at hn
      | some cd =>
        cases hfn : cd.filename with
        | none => rw [hcd] at hn; simp [hfn] at hn
        | some filename =>
          by_cases hc : env.createOk ("C:/webtemp/" ++ uu i ++ "_" ++ san filename)
          · rcases hw : writeChunks env ("C:/webtemp/" ++ uu i ++ "_" ++ san filename)
                field.chunks with ⟨wr, wevs⟩
            cases wr with
            | ok u =>
              simp only [save_file_loop, hcd, hfn, hc, if_true, hw] at h
              exact ih (i + 1) ("C:/webtemp/" ++ uu i ++ "_" ++ san filename) m hn.2 h
            | error werr => simp [save_file_loop, hcd, hfn, hc, hw] at h
          · simp [save_file_loop, hcd, hfn, hc] at h

/-- Every event `upload_to_telegram` emits is a debug log line. -/
lemma upload_to_telegram_events (platform : Platform) (fp : String) (bot : Bot) (cid : Int) :
    ∀ e ∈ (upload_to_telegram platform fp bot cid).2, ∃ m, e = Event.logDebug m := by
  intro e he
  cases hs : platform.send_photo cid fp with
  | error err =>
    simp [upload_to_telegram, hs] at he
    exact ⟨_, he⟩
  | ok response =>
    cases hp : response.photo with
    | none =>
      simp [upload_to_telegram, hs, hp] at he
      exact ⟨_, he⟩
    | some photos =>
      cases hl : photos.getLast? with
      | none =>
        simp [upload_to_telegram, hs, hp, hl] at he
        exact ⟨_, he⟩
      | some ps =>
        cases hg : platform.get_file ps.file_id with
        | error err =>
          simp [upload_to_telegram, hs, hp, hl, hg] at he
          rcases he with rfl | rfl
          · exact ⟨_, rfl⟩
          · exact ⟨_, rfl⟩
        | ok f =>
          simp [upload_to_telegram, hs, hp, hl, hg] at he
          rcases he with rfl | rfl | rfl
          · exact ⟨_, rfl⟩
          · exact ⟨_, rfl⟩
          · exact ⟨_, rfl⟩

/-- Master lemma for the success path of the handler: once staging
succeeds, the handler acquires exactly one permit and releases exactly
one, attempts exactly one deletion, namely of the staged path, creates
exactly the staged files, responds exactly from the forwarding result,
and a deletion failure appears only as an error log line. -/
lemma upload_ok_spec (env : DiskEnv) (platform : Platform) (san : String → String)
    (uu : Nat → String) (data : UploadData) (payload : Multipart) (p : String)
    (h : (save_file env san uu payload).1 = RunResult.ok p) :
    (upload env platform san uu data payload).1
        = RunResult.ok (respOfForward ((upload_to_telegram platform p data.bot data.chat_id).1))
    ∧ acquires (upload env platform san uu data payload).2 = 1
    ∧ releases (upload env platform san uu data payload).2 = 1
    ∧ removals (upload env platform san uu data payload).2 = [p]
    ∧ creates (upload env platform san uu data payload).2 = stagedPaths san uu 0 payload
    ∧ (env.removeOk p = false →
        Event.logError ("Failed to delete temporary file: " ++ p)
          ∈ (upload env platform san uu data payload).2) := by
  have hl : (save_file_loop env san uu 0 "" payload).1 = RunResult.ok p := h
  have hsem := save_file_loop_noSemRem env san uu payload 0 ""
  have hcounts := all_noSemRem_counts _ hsem
  have hA : List.countP isAcquireEv (save_file_loop env san uu 0 "" payload).2 = 0 := hcounts.1
  have hR : List.countP isReleaseEv (save_file_loop env san uu 0 "" payload).2 = 0 :=
    hcounts.2.1
  have hRem : List.filterMap removePath (save_file_loop env san uu 0 "" payload).2 = [] :=
    hcounts.2.2
  have hCr : List.filterMap createPath (save_file_loop env san uu 0 "" payload).2
      = stagedPaths san uu 0 payload := (save_file_loop_ok env san uu payload 0 "" p h).1
  have husem : ∀ e ∈ (upload_to_telegram platform p data.bot data.chat_id).2,
      noSemRem e = true := by
    intro e he
    rcases upload_to_telegram_events platform p data.bot data.chat_id e he with ⟨m, rfl⟩
    rfl
  have hucounts := all_noSemRem_counts _ husem
  have huA : List.countP isAcquireEv (upload_to_telegram platform p data.bot data.chat_id).2
      = 0 := hucounts.1
  have huR : List.countP isReleaseEv (upload_to_telegram platform p data.bot data.chat_id).2
      = 0 := hucounts.2.1
  have huRem : List.filterMap removePath
      (upload_to_telegram platform p data.bot data.chat_id).2 = [] := hucounts.2.2
  have huCr : List.filterMap createPath
      (upload_to_telegram platform p data.bot data.chat_id).2 = [] := by
    apply List.filterMap_eq_nil_iff.mpr
    intro e he
    rcases upload_to_telegram_events platform p data.bot data.chat_id e he with ⟨m, rfl⟩
    rfl
  by_cases hrem : env.removeOk p
  · cases hu : (upload_to_telegram platform p data.bot data.chat_id).1 with
    | ok url =>
      refine ⟨?_, ?_, ?_, ?_, ?_, ?_⟩ <;>
        simp [upload, save_file, hl, hu, hrem, acquires, releases, removals, creates,
          List.countP_append, List.countP_cons, List.filterMap_append, List.filterMap_cons,
          isAcquireEv, isReleaseEv, createPath, removePath, hA, hR, hRem, hCr, huA, huR,
          huRem, huCr, respOfForward]
    | error err =>
      refine ⟨?_, ?_, ?_, ?_, ?_, ?_⟩ <;>
        simp [upload, save_file, hl, hu, hrem, acquires, releases, removals, creates,
          List.countP_append, List.countP_cons, List.filterMap_append, List.filterMap_cons,
          isAcquireEv, isReleaseEv, createPath, removePath, hA, hR, hRem, hCr, huA, huR,
          huRem, huCr, respOfForward]
  · cases hu : (upload_to_telegram platform p data.bot data.chat_id).1 with
    | ok url =>
      refine ⟨?_, ?_, ?_, ?_, ?_, ?_⟩ <;>
        simp [upload, save_file, hl, hu, hrem, acquires, releases, removals, creates,
          List.countP_append, List.countP_cons, List.filterMap_append, List.filterMap_cons,
          isAcquireEv, isReleaseEv, createPath, removePath, hA, hR, hRem, hCr, huA, huR,
          huRem, huCr, respOfForward]
    | error err =>
      refine ⟨?_, ?_, ?_, ?_, ?_, ?_⟩ <;>
        simp [upload, save_file, hl, hu, hrem, acquires, releases, removals, creates,
          List.countP_append, List.countP_cons, List.filterMap_append, List.filterMap_cons,
          isAcquireEv, isReleaseEv, createPath, removePath, hA, hR, hRem, hCr, huA, huR,
          huRem, huCr, respOfForward]

/-! ### The concurrency limiter as a transition system

`main` builds `Semaphore::new(config.max_concurrent_uploads)` and every
request, after staging, runs `acquire` before `upload_to_telegram` and
drops the permit right after (main.rs lines 112-116, 168).  Concurrent
requests are modelled as a list of task states stepped by an arbitrary
scheduler; the counting-semaphore semantics is that `acquire` completes
only while fewer than `K` permits are out. -/

/-- Phase of one request task after staging succeeded: waiting to
acquire, holding a permit while forwarding, or finished. -/
inductive TaskState where
  | staged
  | forwarding
  | finished
deriving DecidableEq

/-- Recognizes a task whose forwarding operation is in flight. -/
def isForwarding : TaskState → Bool
  | TaskState.forwarding => true
  | _ => false

/-- Number of forwarding operations currently in flight. -/
def forwardingCount (ts : List TaskState) : Nat :=
  ts.countP isForwarding

/-- One scheduler step: `acquire` models `data.semaphore.acquire().await`
completing, which a counting semaphore of capacity `K` allows only while
fewer than `K` permits are held; `finish` models `upload_to_telegram`
returning followed by `drop(permit)`. -/
inductive SemStep (K : Nat) : List TaskState → List TaskState → Prop where
  | acquire (ts : List TaskState) (i : Nat) (hi : ts[i]? = some TaskState.staged)
      (hcap : forwardingCount ts < K) : SemStep K ts (ts.set i TaskState.forwarding)
  | finish (ts : List TaskState) (i : Nat) (hi : ts[i]? = some TaskState.forwarding) :
      SemStep K ts (ts.set i TaskState.finished)

/-- Reachability under arbitrary interleaving of scheduler steps. -/
inductive SemReach (K : Nat) : List TaskState → List TaskState → Prop where
  | refl (ts : List TaskState) : SemReach K ts ts
  | step {a b c : List TaskState} : SemReach K a b → SemStep K b c → SemReach K a c

/-- Updating one element shifts `countP` by the difference of the old and
new elements. -/
lemma countP_set_add {α : Type} (q : α → Bool) :
    ∀ (l : List α) (i : Nat) (b a : α), l[i]? = some b →
      (l.set i a).countP q + (if q b then 1 else 0)
        = l.countP q + (if q a then 1 else 0) := by
  intro l
  induction l with
  | nil => intro i b a hb; simp at hb
  | cons x xs ih =>
    intro i b a hb
    cases i with
    | zero =>
      rw [List.getElem?_cons_zero] at hb
      injection hb with hb
      subst hb
      rw [List.set_cons_zero]
      rw [List.countP_cons, List.countP_cons]
      omega
    | succ n =>
      rw [List.getElem?_cons_succ] at hb
      rw [List.set_cons_succ]
      rw [List.countP_cons, List.countP_cons]
      have := ih n b a hb
      omega

/-- A single scheduler step preserves the concurrency bound. -/
lemma semStep_bound {K : Nat} {a b : List TaskState} (hstep : SemStep K a b)
    (hb : forwardingCount a ≤ K) : forwardingCount b ≤ K := by
  cases hstep with
  | acquire i hi hcap =>
    have hc := countP_set_add isForwarding a i TaskState.staged TaskState.forwarding hi
    simp [isForwarding] at hc
    have hcap' : List.countP isForwarding a < K := hcap
    show List.countP isForwarding (a.set i TaskState.forwarding) ≤ K
    omega
  | finish i hi =>
    have hc := countP_set_add isForwarding a i TaskState.forwarding TaskState.finished hi
    simp [isForwarding] at hc
    have hb' : List.countP isForwarding a ≤ K := hb
    show List.countP isForwarding (a.set i TaskState.finished) ≤ K
    omega

/-! ### Concrete environments and requests used by the witnesses -/

/-- A disk on which every create, write and delete succeeds. -/
def envAllOk : DiskEnv :=
  DiskEnv.mk (fun _ => true) (fun _ _ => true) (fun _ => true)

/-- A disk on which every write fails (creates still succeed). -/
def envNoWrite : DiskEnv :=
  DiskEnv.mk (fun _ => true) (fun _ _ => false) (fun _ => true)

/-- A disk on which deletion always fails. -/
def envNoRemove : DiskEnv :=
  DiskEnv.mk (fun _ => true) (fun _ _ => true) (fun _ => false)

/-- A deterministic identifier supply standing in for `Uuid::new_v4()`. -/
def uuidsDemo : Nat → String := fun i => "u" ++ toString i

/-- An identity filename sanitizer (the sanitizer is irrelevant to the
claims settled on concrete inputs). -/
def sanDemo : String → String := fun s => s

/-- A well-formed one-chunk part named a.png. -/
def partA : MField :=
  MField.mk (some (ContentDisposition.mk (some ("a.png")))) [Except.ok [1, 2]]

/-- A second well-formed part named b.png. -/
def partB : MField :=
  MField.mk (some (ContentDisposition.mk (some ("b.png")))) [Except.ok [3]]

/-- A part with two chunks, used to exercise the write loop. -/
def partTwoChunks : MField :=
  MField.mk (some (ContentDisposition.mk (some ("c.png")))) [Except.ok [7], Except.ok [8]]

/-- A part whose `Content-Disposition` header is missing. -/
def partNoCd : MField := MField.mk none []

/-- A Telegram oracle that accepts the photo, reports two size variants,
and resolves each variant to its own path. -/
def platDemo : Platform :=
  Platform.mk
    (fun _ _ => Except.ok (TgMessage.mk (some [PhotoSize.mk ("id1"), PhotoSize.mk ("id2")])))
    (fun fid => if fid = "id2" then Except.ok (TgFile.mk ("photos/f2.jpg"))
      else Except.ok (TgFile.mk ("photos/f1.jpg")))

/-- The shared handler data used by the witnesses. -/
def dataDemo : UploadData := UploadData.mk (Bot.mk ("SECRET123")) 42

/-- For a nonempty list, `getLast?` agrees with `getLastD` at any default. -/
lemma getLast?_of_ne_nil {α : Type} (l : List α) (d : α) (h : l ≠ []) :
    l.getLast? = some (l.getLastD d) := by
  induction l generalizing d with
  | nil => exact absurd rfl h
  | cons a t ih =>
    cases t with
    | nil => rfl
    | cons b t2 =>
      rw [List.getLast?_cons_cons, List.getLastD_cons]
      exact ih a (by simp)

/-! ### The claims -/

/-- C8: in every interleaving reachable by the scheduler, the number of
forwarding operations running simultaneously never exceeds the semaphore
capacity `K` (`max_concurrent_uploads`), provided it did not already
exceed it initially. -/
theorem c8_concurrency_bound (K : Nat) (init s : List TaskState)
    (h0 : forwardingCount init ≤ K) (hr : SemReach K init s) :
    forwardingCount s ≤ K := by
  induction hr with
  | refl => exact h0
  | step hab hbc ih => exact semStep_bound hbc ih

/-- Witness for C8: limit 1, two staged tasks, one acquire step taken. -/
theorem c8_concurrency_bound_witness :
    forwardingCount [TaskState.staged, TaskState.staged] ≤ 1
    ∧ SemReach 1 [TaskState.staged, TaskState.staged]
        [TaskState.forwarding, TaskState.staged]
    ∧ forwardingCount [TaskState.forwarding, TaskState.staged] ≤ 1 := by
  have hreach : SemReach 1 [TaskState.staged, TaskState.staged]
      [TaskState.forwarding, TaskState.staged] :=
    SemReach.step (SemReach.refl _)
      (SemStep.acquire [TaskState.staged, TaskState.staged] 0 (by decide) (by decide))
  exact ⟨by decide, hreach,
    c8_concurrency_bound 1 [TaskState.staged, TaskState.staged]
      [TaskState.forwarding, TaskState.staged] (by decide) hreach⟩

/-- C1 (amended): for every request whose staging step succeeds, the
handler performs exactly one permit acquire paired with exactly one
release and exactly one temporary-file deletion attempt — targeting the
path staging returned — regardless of the forwarding outcome; the number
of temporary-file creations, however, equals the number of parts the
stream yields, so it is exactly one only for single-part requests. -/
theorem c1_permit_and_file_pairing (env : DiskEnv) (platform : Platform)
    (san : String → String) (uu : Nat → String) (data : UploadData)
    (payload : Multipart) (p : String)
    (h : (save_file env san uu payload).1 = RunResult.ok p) :
    acquires (upload env platform san uu data payload).2 = 1
    ∧ releases (upload env platform san uu data payload).2 = 1
    ∧ removals (upload env platform san uu data payload).2 = [p]
    ∧ (creates (upload env platform san uu data payload).2).length = payload.length := by
  rcases upload_ok_spec env platform san uu data payload p h with ⟨_, h1, h2, h3, h4, _⟩
  refine ⟨h1, h2, h3, ?_⟩
  rw [h4]
  exact (save_file_loop_ok env san uu payload 0 "" p h).2.2

/-- Witness for C1 on a single-part request against a working disk and a
responsive platform. -/
theorem c1_permit_and_file_pairing_witness :
    (save_file envAllOk sanDemo uuidsDemo [Except.ok partA]).1
      = RunResult.ok ("C:/webtemp/u0_a.png")
    ∧ (acquires (upload envAllOk platDemo sanDemo uuidsDemo dataDemo [Except.ok partA]).2 = 1
      ∧ releases (upload envAllOk platDemo sanDemo uuidsDemo dataDemo [Except.ok partA]).2 = 1
      ∧ removals (upload envAllOk platDemo sanDemo uuidsDemo dataDemo [Except.ok partA]).2
          = ["C:/webtemp/u0_a.png"]
      ∧ (creates (upload envAllOk platDemo sanDemo uuidsDemo dataDemo
          [Except.ok partA]).2).length = ([Except.ok partA] : Multipart).length) :=
  ⟨rfl, c1_permit_and_file_pairing envAllOk platDemo sanDemo uuidsDemo dataDemo
    [Except.ok partA] ("C:/webtemp/u0_a.png") rfl⟩

/-- C1 counterexample: a two-part request stages successfully, yet the
handler performs two temporary-file creations against a single deletion
attempt, so creations are not paired one-to-one with deletion attempts as
the claim states. -/
theorem c1_counterexample :
    (save_file envAllOk sanDemo uuidsDemo [Except.ok partA, Except.ok partB]).1
      = RunResult.ok ("C:/webtemp/u1_b.png")
    ∧ (creates (upload envAllOk platDemo sanDemo uuidsDemo dataDemo
        [Except.ok partA, Except.ok partB]).2).length = 2
    ∧ (removals (upload envAllOk platDemo sanDemo uuidsDemo dataDemo
        [Except.ok partA, Except.ok partB]).2).length = 1 :=
  ⟨rfl, by decide, by decide⟩

/-- C2 (amended): the chunks of a part are written to the file
sequentially in stream order — on a successful run the writes are exactly
the chunk stream, and on a failing run they are exactly the leading
successfully-handled segment of the stream, still in order; whenever any
chunk read or disk write fails while staging a part anywhere in the
stream (earlier parts having staged fine), `save_file` returns that I/O
error and the file had been created; the partially written file, however,
is NOT removed — `save_file` never performs a deletion attempt on any
input. -/
theorem c2_sequential_writes_no_cleanup (env : DiskEnv) (san : String → String)
    (uu : Nat → String) (path : String) (chunks : List (Except String Chunk))
    (payload : Multipart) :
    ((writeChunks env path chunks).1 = Except.ok () →
      ∃ datas : List Chunk, chunks = datas.map Except.ok
        ∧ (writeChunks env path chunks).2 = datas.map (Event.fileWrite path))
    ∧ (∀ e, (writeChunks env path chunks).1 = Except.error e →
      ∃ datas : List Chunk,
        (writeChunks env path chunks).2 = datas.map (Event.fileWrite path)
        ∧ chunks.take datas.length = datas.map Except.ok)
    ∧ removals (save_file env san uu payload).2 = []
    ∧ (∀ (pre : Multipart) (field : MField) (rest : Multipart)
        (cd : ContentDisposition) (filename p : String) (e : SErr),
        payload = pre ++ Except.ok field :: rest →
        (pre = [] ∨ (save_file_loop env san uu 0 "" pre).1 = RunResult.ok p) →
        field.content_disposition = some cd →
        cd.filename = some filename →
        env.createOk ("C:/webtemp/" ++ uu pre.length ++ "_" ++ san filename) = true →
        (writeChunks env ("C:/webtemp/" ++ uu pre.length ++ "_" ++ san filename)
          field.chunks).1 = Except.error e →
        (save_file env san uu payload).1 = RunResult.err e
        ∧ Event.fileCreate ("C:/webtemp/" ++ uu pre.length ++ "_" ++ san filename)
            ∈ (save_file env san uu payload).2) := by
  refine ⟨writeChunks_ok_events env path chunks, writeChunks_err_events env path chunks,
    (all_noSemRem_counts _ (save_file_loop_noSemRem env san uu payload 0 "")).2.2, ?_⟩
  intro pre field rest cd filename p e hpay hpre hcd hfn hc hw
  subst hpay
  rcases hpre with rfl | hok
  · rcases save_file_loop_head_fail env san uu 0 "" field rest cd filename e hcd hfn hc hw
      with ⟨h1, h2⟩
    refine ⟨h1, ?_⟩
    show Event.fileCreate _ ∈ (save_file_loop env san uu 0 "" (Except.ok field :: rest)).2
    rw [h2]
    simp
  · rcases save_file_loop_append env san uu pre (Except.ok field :: rest) 0 "" p hok
      with ⟨ha1, ha2⟩
    have hz : 0 + pre.length = pre.length := Nat.zero_add _
    rw [hz] at ha1 ha2
    rcases save_file_loop_head_fail env san uu pre.length p field rest cd filename e
      hcd hfn hc hw with ⟨h1, h2⟩
    constructor
    · show (save_file_loop env san uu 0 "" (pre ++ Except.ok field :: rest)).1
        = RunResult.err e
      rw [ha1, h1]
    · show Event.fileCreate _
        ∈ (save_file_loop env san uu 0 "" (pre ++ Except.ok field :: rest)).2
      rw [ha2, h2]
      simp

/-- Witness for C2: on an all-ok disk a two-chunk part is written in
order; on a disk whose writes fail, the failing-run clauses apply to a
single-part request: the partial writes are the leading ok segment, the
staging result is the I/O error, and the created file is in the trace. -/
theorem c2_sequential_writes_no_cleanup_witness :
    (writeChunks envAllOk ("C:/webtemp/u0_c.png") partTwoChunks.chunks).1 = Except.ok ()
    ∧ (∃ datas : List Chunk, partTwoChunks.chunks = datas.map Except.ok
        ∧ (writeChunks envAllOk ("C:/webtemp/u0_c.png") partTwoChunks.chunks).2
          = datas.map (Event.fileWrite ("C:/webtemp/u0_c.png")))
    ∧ (writeChunks envNoWrite ("C:/webtemp/u0_a.png") partA.chunks).1
      = Except.error (SErr.internal ("write failed"))
    ∧ (∃ datas : List Chunk,
        (writeChunks envNoWrite ("C:/webtemp/u0_a.png") partA.chunks).2
          = datas.map (Event.fileWrite ("C:/webtemp/u0_a.png"))
        ∧ partA.chunks.take datas.length = datas.map Except.ok)
    ∧ removals (save_file envNoWrite sanDemo uuidsDemo [Except.ok partA]).2 = []
    ∧ ((save_file envNoWrite sanDemo uuidsDemo [Except.ok partA]).1
        = RunResult.err (SErr.internal ("write failed"))
      ∧ Event.fileCreate ("C:/webtemp/u0_a.png")
          ∈ (save_file envNoWrite sanDemo uuidsDemo [Except.ok partA]).2) :=
  ⟨rfl,
   (c2_sequential_writes_no_cleanup envAllOk sanDemo uuidsDemo ("C:/webtemp/u0_c.png")
      partTwoChunks.chunks [Except.ok partTwoChunks]).1 rfl,
   rfl,
   (c2_sequential_writes_no_cleanup envNoWrite sanDemo uuidsDemo ("C:/webtemp/u0_a.png")
      partA.chunks [Except.ok partA]).2.1 (SErr.internal ("write failed")) rfl,
   (c2_sequential_writes_no_cleanup envNoWrite sanDemo uuidsDemo ("C:/webtemp/u0_a.png")
      partA.chunks [Except.ok partA]).2.2.1,
   (c2_sequential_writes_no_cleanup envNoWrite sanDemo uuidsDemo ("C:/webtemp/u0_a.png")
      partA.chunks [Except.ok partA]).2.2.2 [] partA []
      (ContentDisposition.mk (some ("a.png"))) ("a.png") ("")
      (SErr.internal ("write failed")) rfl (Or.inl rfl) rfl rfl rfl rfl⟩

/-- C2 counterexample: with a disk whose writes fail, `save_file` creates
the file, returns the I/O error, and the trace contains no removal of the
partially written file, contradicting the claimed cleanup-before-return. -/
theorem c2_counterexample :
    (save_file envNoWrite sanDemo uuidsDemo [Except.ok partA]).1
      = RunResult.err (SErr.internal ("write failed"))
    ∧ Event.fileCreate ("C:/webtemp/u0_a.png")
        ∈ (save_file envNoWrite sanDemo uuidsDemo [Except.ok partA]).2
    ∧ removals (save_file envNoWrite sanDemo uuidsDemo [Except.ok partA]).2 = [] :=
  ⟨rfl, by decide, rfl⟩

/-- C3 (amended): a successful call of `save_file` creates exactly one
file per part the stream yields — as many files as parts — hence exactly
one file only for single-part requests. -/
theorem c3_one_file_per_part (env : DiskEnv) (san : String → String)
    (uu : Nat → String) (payload : Multipart) (p : String)
    (h : (save_file env san uu payload).1 = RunResult.ok p) :
    creates (save_file env san uu payload).2 = stagedPaths san uu 0 payload
    ∧ (creates (save_file env san uu payload).2).length = payload.length := by
  rcases save_file_loop_ok env san uu payload 0 "" p h with ⟨h1, _, h3⟩
  exact ⟨h1, by rw [show creates (save_file env san uu payload).2
    = stagedPaths san uu 0 payload from h1]; exact h3⟩

/-- Witness for C3 on a single-part request: exactly one file. -/
theorem c3_one_file_per_part_witness :
    (save_file envAllOk sanDemo uuidsDemo [Except.ok partA]).1
      = RunResult.ok ("C:/webtemp/u0_a.png")
    ∧ (creates (save_file envAllOk sanDemo uuidsDemo [Except.ok partA]).2
        = stagedPaths sanDemo uuidsDemo 0 [Except.ok partA]
      ∧ (creates (save_file envAllOk sanDemo uuidsDemo [Except.ok partA]).2).length
        = ([Except.ok partA] : Multipart).length) :=
  ⟨rfl, c3_one_file_per_part envAllOk sanDemo uuidsDemo [Except.ok partA]
    ("C:/webtemp/u0_a.png") rfl⟩

/-- C3 counterexample: a successful call on a two-part stream creates two
files, not exactly one. -/
theorem c3_counterexample :
    (save_file envAllOk sanDemo uuidsDemo [Except.ok partA, Except.ok partB]).1
      = RunResult.ok ("C:/webtemp/u1_b.png")
    ∧ (creates (save_file envAllOk sanDemo uuidsDemo
        [Except.ok partA, Except.ok partB]).2).length ≠ 1 :=
  ⟨rfl, by decide⟩

/-- C4 (code bug): the credential does appear in diagnostic output.  On a
successful upload, `upload_to_telegram` logs Generated file URL at debug
level (main.rs line 52), and that URL embeds the bot token; this
contradicts the stated intent of the source — the comment Never log the
telegram_bot_token (main.rs line 162) and the redacting custom Debug
instance on `Config` (main.rs lines 24-31). -/
theorem c4_token_leaks_into_log :
    ∃ m, Event.logDebug m
        ∈ (upload_to_telegram platDemo ("C:/webtemp/u0_a.png") (Bot.mk ("SECRET123")) 42).2
      ∧ ∃ pre post, m = pre ++ "SECRET123" ++ post := by
  refine ⟨"Generated file URL: https://api.telegram.org/file/botSECRET123/photos/f2.jpg",
    ?_, "Generated file URL: https://api.telegram.org/file/bot", "/photos/f2.jpg", ?_⟩
  · decide
  · rfl

/-- The redacting `Debug` instance on `Config` is credential-independent:
two configurations with the same concurrency limit render identically,
whatever their tokens. -/
lemma configDebugOutput_ignores_token (c c' : Config)
    (h : c.max_concurrent_uploads = c'.max_concurrent_uploads) :
    configDebugOutput c = configDebugOutput c' := by
  simp [configDebugOutput, h]

/-- C5: when the platform accepts the photo and returns a non-empty list
of size variants, the uploader selects the LAST variant of the returned
ordering, resolves the `file_id` of that variant via `get_file`, and returns
the platform URL template composed from the credential and the resolved
path. -/
theorem c5_selects_last_variant (platform : Platform) (fp : String) (bot : Bot)
    (cid : Int) (response : TgMessage) (photos : List PhotoSize) (ps : PhotoSize)
    (f : TgFile)
    (hs : platform.send_photo cid fp = Except.ok response)
    (hp : response.photo = some photos)
    (hl : photos.getLast? = some ps)
    (hg : platform.get_file ps.file_id = Except.ok f) :
    (upload_to_telegram platform fp bot cid).1
      = Except.ok ("https://api.telegram.org/file/bot" ++ bot.token ++ "/" ++ f.path) := by
  simp [upload_to_telegram, hs, hp, hl, hg]

/-- Witness for C5: two size variants; the URL embeds the path resolved
from the second (last) variant, not the first. -/
theorem c5_selects_last_variant_witness :
    platDemo.send_photo 42 ("C:/webtemp/u0_a.png")
      = Except.ok (TgMessage.mk (some [PhotoSize.mk ("id1"), PhotoSize.mk ("id2")]))
    ∧ [PhotoSize.mk ("id1"), PhotoSize.mk ("id2")].getLast? = some (PhotoSize.mk ("id2"))
    ∧ platDemo.get_file ("id2") = Except.ok (TgFile.mk ("photos/f2.jpg"))
    ∧ (upload_to_telegram platDemo ("C:/webtemp/u0_a.png") (Bot.mk ("SECRET123")) 42).1
      = Except.ok ("https://api.telegram.org/file/botSECRET123/photos/f2.jpg") :=
  ⟨rfl, rfl, rfl,
    c5_selects_last_variant platDemo ("C:/webtemp/u0_a.png") (Bot.mk ("SECRET123")) 42
      (TgMessage.mk (some [PhotoSize.mk ("id1"), PhotoSize.mk ("id2")]))
      [PhotoSize.mk ("id1"), PhotoSize.mk ("id2")] (PhotoSize.mk ("id2"))
      (TgFile.mk ("photos/f2.jpg")) rfl rfl rfl rfl⟩

/-- C6: when the temporary-file deletion fails after forwarding, the
failure is only logged: the response is exactly the one determined by the
forwarding result, and the deletion failure appears in the trace only as
an error log line, never in the response. -/
theorem c6_cleanup_failure_only_logged (env : DiskEnv) (platform : Platform)
    (san : String → String) (uu : Nat → String) (data : UploadData)
    (payload : Multipart) (p : String)
    (h : (save_file env san uu payload).1 = RunResult.ok p)
    (hrem : env.removeOk p = false) :
    (upload env platform san uu data payload).1
      = RunResult.ok (respOfForward ((upload_to_telegram platform p data.bot data.chat_id).1))
    ∧ Event.logError ("Failed to delete temporary file: " ++ p)
        ∈ (upload env platform san uu data payload).2 := by
  rcases upload_ok_spec env platform san uu data payload p h with ⟨h1, _, _, _, _, h6⟩
  exact ⟨h1, h6 hrem⟩

/-- Witness for C6: deletion always fails, the upload itself succeeds,
and the caller still receives the 200 response with the URL. -/
theorem c6_cleanup_failure_only_logged_witness :
    (save_file envNoRemove sanDemo uuidsDemo [Except.ok partA]).1
      = RunResult.ok ("C:/webtemp/u0_a.png")
    ∧ envNoRemove.removeOk ("C:/webtemp/u0_a.png") = false
    ∧ ((upload envNoRemove platDemo sanDemo uuidsDemo dataDemo [Except.ok partA]).1
        = RunResult.ok (respOfForward ((upload_to_telegram platDemo ("C:/webtemp/u0_a.png")
            dataDemo.bot dataDemo.chat_id).1))
      ∧ Event.logError ("Failed to delete temporary file: " ++ "C:/webtemp/u0_a.png")
          ∈ (upload envNoRemove platDemo sanDemo uuidsDemo dataDemo [Except.ok partA]).2) :=
  ⟨rfl, rfl, c6_cleanup_failure_only_logged envNoRemove platDemo sanDemo uuidsDemo dataDemo
    [Except.ok partA] ("C:/webtemp/u0_a.png") rfl rfl⟩

/-- C7: a multipart stream that terminates having yielded no part fails
with the EmptyUpload error — realized in the source as
ErrorInternalServerError with the message File path is empty — no file is
created, and the handler responds with that error. -/
theorem c7_empty_upload (env : DiskEnv) (platform : Platform) (san : String → String)
    (uu : Nat → String) (data : UploadData) (payload : Multipart)
    (h : payload = []) :
    (save_file env san uu payload).1 = RunResult.err (SErr.internal ("File path is empty"))
    ∧ creates (save_file env san uu payload).2 = []
    ∧ (upload env platform san uu data payload).1
      = RunResult.ok (HttpResponse.mk 500 ("Failed to save file: File path is empty")) := by
  subst h
  exact ⟨rfl, rfl, rfl⟩

/-- Witness for C7 at the empty multipart body. -/
theorem c7_empty_upload_witness :
    ([] : Multipart) = []
    ∧ ((save_file envAllOk sanDemo uuidsDemo []).1
        = RunResult.err (SErr.internal ("File path is empty"))
      ∧ creates (save_file envAllOk sanDemo uuidsDemo []).2 = []
      ∧ (upload envAllOk platDemo sanDemo uuidsDemo dataDemo []).1
        = RunResult.ok (HttpResponse.mk 500 ("Failed to save file: File path is empty"))) :=
  ⟨rfl, c7_empty_upload envAllOk platDemo sanDemo uuidsDemo dataDemo [] rfl⟩

/-- C9 (amended): for every request in which each yielded part carries a
Content-Disposition filename, the handler converts every error — stream
errors, chunk-read failures, disk I/O failures and all forwarding
failures — into a failure response and never panics; a part lacking a
Content-Disposition or a filename, however, makes `save_file` panic (the
`unwrap` calls) instead of producing an error response. -/
theorem c9_no_panic_when_named (env : DiskEnv) (platform : Platform)
    (san : String → String) (uu : Nat → String) (data : UploadData)
    (payload : Multipart) (hn : allNamed payload = true) :
    ∃ resp, (upload env platform san uu data payload).1 = RunResult.ok resp := by
  cases hs : (save_file env san uu payload).1 with
  | ok p =>
    rcases upload_ok_spec env platform san uu data payload p hs with ⟨h1, _⟩
    exact ⟨_, h1⟩
  | err e =>
    refine ⟨HttpResponse.mk 500 ("Failed to save file: " ++ showSErr e), ?_⟩
    simp [upload, hs]
  | panicked m => exact absurd hs (save_file_loop_no_panic env san uu payload 0 "" m hn)

/-- Witness for C9 on a well-formed single-part request. -/
theorem c9_no_panic_when_named_witness :
    allNamed [Except.ok partA] = true
    ∧ ∃ resp, (upload envAllOk platDemo sanDemo uuidsDemo dataDemo [Except.ok partA]).1
        = RunResult.ok resp :=
  ⟨rfl, c9_no_panic_when_named envAllOk platDemo sanDemo uuidsDemo dataDemo
    [Except.ok partA] rfl⟩

/-- C9 counterexample: a part without a Content-Disposition makes the
handler panic — the outcome is a panic, not a failure response, refuting
the claim for this malformed request. -/
theorem c9_counterexample :
    (upload envAllOk platDemo sanDemo uuidsDemo dataDemo [Except.ok partNoCd]).1
      = RunResult.panicked ("called Option::unwrap on a None value") := rfl

/-- C10: on a request of two or more parts that all stage successfully,
`save_file` returns the on-disk path written for the LAST part, the
response of the handler is the forwarding result at exactly that path, the
files created are one per part, and the single deletion attempt targets
only that last path — every other created file is never deleted. -/
theorem c10_multi_part_last_wins (env : DiskEnv) (platform : Platform)
    (san : String → String) (uu : Nat → String) (data : UploadData)
    (payload : Multipart) (p : String)
    (hlen : 2 ≤ payload.length)
    (h : (save_file env san uu payload).1 = RunResult.ok p) :
    (stagedPaths san uu 0 payload).getLast? = some p
    ∧ creates (upload env platform san uu data payload).2 = stagedPaths san uu 0 payload
    ∧ removals (upload env platform san uu data payload).2 = [p]
    ∧ (∀ q, Event.fileRemove q ∈ (upload env platform san uu data payload).2 → q = p)
    ∧ (upload env platform san uu data payload).1
      = RunResult.ok (respOfForward ((upload_to_telegram platform p data.bot
          data.chat_id).1)) := by
  rcases upload_ok_spec env platform san uu data payload p h with ⟨h1, _, _, h3, h4, _⟩
  rcases save_file_loop_ok env san uu payload 0 "" p h with ⟨_, hlast, hlenp⟩
  have hne : stagedPaths san uu 0 payload ≠ [] := by
    intro hnil
    rw [hnil] at hlenp
    simp at hlenp
    omega
  refine ⟨?_, h4, h3, ?_, h1⟩
  · rw [getLast?_of_ne_nil (stagedPaths san uu 0 payload) "" hne, hlast]
  · intro q hq
    have hmem : q ∈ removals (upload env platform san uu data payload).2 :=
      List.mem_filterMap.mpr ⟨Event.fileRemove q, hq, rfl⟩
    rw [h3] at hmem
    simpa using hmem

/-- Witness for C10 on a two-part request. -/
theorem c10_multi_part_last_wins_witness :
    2 ≤ ([Except.ok partA, Except.ok partB] : Multipart).length
    ∧ (save_file envAllOk sanDemo uuidsDemo [Except.ok partA, Except.ok partB]).1
      = RunResult.ok ("C:/webtemp/u1_b.png")
    ∧ (stagedPaths sanDemo uuidsDemo 0 [Except.ok partA, Except.ok partB]).getLast?
      = some ("C:/webtemp/u1_b.png")
    ∧ removals (upload envAllOk platDemo sanDemo uuidsDemo dataDemo
        [Except.ok partA, Except.ok partB]).2 = ["C:/webtemp/u1_b.png"] :=
  ⟨by decide, rfl,
    (c10_multi_part_last_wins envAllOk platDemo sanDemo uuidsDemo dataDemo
      [Except.ok partA, Except.ok partB] ("C:/webtemp/u1_b.png") (by decide) rfl).1,
    (c10_multi_part_last_wins envAllOk platDemo sanDemo uuidsDemo dataDemo
      [Except.ok partA, Except.ok partB] ("C:/webtemp/u1_b.png") (by decide) rfl).2.2.1⟩

end ImageBot
